import Mathlib

/-!
Shallow embedding of the recommendation service (server.js and the two
unnamed variant files).  JavaScript strings are `String`, nullable /
possibly-absent JSON fields are `Option`, numbers that stay finite are `Rat`,
and the special float values produced by unguarded division are captured by
an explicit `JSNum` type.  External capabilities (the embedding model, the
generative model, `Math.sqrt`, `encodeURIComponent`) are parameters of the
definitions that use them.
-/

namespace Peruze

/-- JavaScript truthiness of a possibly-absent string field
(`undefined`, `null` and `""` are falsy). -/
def jsTruthy : Option String → Bool
  | none => false
  | some s => s != ""

/-- JavaScript `x || d` on a possibly-absent string field. -/
def jsOr : Option String → String → String
  | none, d => d
  | some s, d => if s = "" then d else s

/-- JavaScript template-literal rendering of a possibly-absent field:
an absent value prints as the string "undefined". -/
def tmpl : Option String → String
  | none => "undefined"
  | some s => s

/-- JavaScript `s.includes(pat)`: `pat` occurs as a contiguous substring
of `s`. -/
def containsSub (s pat : String) : Bool :=
  decide (pat.data <:+: s.data)

/-! ## Rows of the `links` table -/

/-- A row of the `links` table as selected by the recommendation endpoints. -/
structure LinkItem where
  id : Nat
  url : Option String
  title : Option String
  description : Option String
  brand : Option String
  price : Option String
  thumbnail : Option String
deriving DecidableEq

/-- A corpus row (links of other users) as selected by the similarity path of
server.js: the query filters out rows with a null embedding, so the
embedding is always present, parsed to a vector. -/
structure CorpusLink where
  id : Nat
  url : Option String
  title : Option String
  brand : Option String
  price : Option String
  thumbnail : Option String
  embedding : List Rat
deriving DecidableEq

/-! ## Cosine similarity (server.js lines 258-263)

`Math.sqrt` is an external real function; it is passed in as a parameter
`sqrt : Rat → Rat`.  The final unguarded division is modelled exactly as
JavaScript division of finite numbers: a zero denominator yields NaN when
the numerator is zero and a signed infinity otherwise. -/

/-- The special values a JavaScript division can produce. -/
inductive JSNum where
  | num (q : Rat)
  | posInf
  | negInf
  | nan
deriving DecidableEq

/-- JavaScript division of two finite numbers. -/
def jsDiv (a b : Rat) : JSNum :=
  if b = 0 then (if a = 0 then JSNum.nan else if 0 < a then JSNum.posInf else JSNum.negInf)
  else JSNum.num (a / b)

/-- `vecA.reduce((sum, a, i) => sum + a * vecB[i], 0)`; faithful whenever the
two vectors have equal length (the only case the claims consider). -/
def dotProduct (vecA vecB : List Rat) : Rat :=
  (vecA.zip vecB).foldl (fun sum p => sum + p.1 * p.2) 0

/-- `vec.reduce((sum, a) => sum + a * a, 0)`. -/
def sumSquares (vec : List Rat) : Rat :=
  vec.foldl (fun sum a => sum + a * a) 0

/-- `cosineSimilarity(vecA, vecB)` from server.js, parameterized by the
external square-root function. -/
def cosineSimilarity (sqrt : Rat → Rat) (vecA vecB : List Rat) : JSNum :=
  jsDiv (dotProduct vecA vecB) (sqrt (sumSquares vecA) * sqrt (sumSquares vecB))

/-! ## Similarity ranking (server.js lines 188-199)

`Array.prototype.sort` is specified to be stable; with the consistent
comparator `(a, b) => b.similarity - a.similarity` its output is the unique
stable non-increasing reordering, realized here by `List.mergeSort`. -/

/-- A corpus item spread together with its computed similarity
(`{ ...item, similarity }`).  Scores are modelled as rationals. -/
structure ScoredItem where
  id : Nat
  url : Option String
  title : Option String
  brand : Option String
  price : Option String
  thumbnail : Option String
  similarity : Rat
deriving DecidableEq

/-- The ordering realized by the comparator
`(a, b) => b.similarity - a.similarity`: `a` may come before `b` exactly
when its score is at least the score of `b`. -/
def simLE (a b : ScoredItem) : Bool :=
  decide (b.similarity ≤ a.similarity)

/-- `itemsWithSimilarity.sort((a, b) => b.similarity - a.similarity).slice(0, 8)`. -/
def topRecommendations (itemsWithSimilarity : List ScoredItem) : List ScoredItem :=
  (itemsWithSimilarity.mergeSort simLE).take 8

/-! ## Price sanitization (part_000 line 157) -/

/-- `String(price).replace(/[^0-9.]/g, "")`. -/
def sanitizePrice (s : String) : String :=
  String.mk (s.data.filter fun c => c.isDigit || c == '.')

/-- The whole price expression
`product.price ? String(product.price).replace(/[^0-9.]/g, "") : "0"`
(an absent or empty price is falsy and defaults to "0"). -/
def priceField : Option String → String
  | none => "0"
  | some s => if s = "" then "0" else sanitizePrice s

/-! ## The discovery-source normalizer (part_000 lines 138-165) -/

/-- A raw result of the external discovery (Flask) service. -/
structure Product where
  link : Option String
  product_link : Option String
  title : Option String
  source : Option String
  brand : Option String
  price : Option String
  thumbnail : Option String
deriving DecidableEq

/-- One canonical normalized recommendation as built by part_000. -/
structure NormRec where
  url : String
  title : String
  brand : String
  price : String
  image_url : Option String
  reason : String
deriving DecidableEq

/-- `[...new Set(links.map(l => l.brand).filter(Boolean))].slice(0, 3)`:
the distinct truthy brands in first-occurrence order, first three. -/
def userBrands (links : List LinkItem) : List String :=
  ((links.filterMap fun l => if jsTruthy l.brand then l.brand else none).foldl
    (fun acc s => if s ∈ acc then acc else acc ++ [s]) []).take 3

/-- The image-URL cleanup of part_000 lines 142-148: the thumbnail is kept
only when truthy and free of the placeholder substrings "1234567" and
"example.com". -/
def imageUrlOf : Option String → Option String
  | none => none
  | some t =>
    if (t != "") && !(containsSub t "1234567") && !(containsSub t "example.com")
    then some t else none

/-- The per-candidate mapping of part_000 lines 141-162. -/
def mapProduct (links : List LinkItem) (product : Product) : NormRec :=
  { url := jsOr product.link (jsOr product.product_link ""),
    title := jsOr product.title "Unknown Product",
    brand := jsOr product.source (jsOr product.brand "Unknown Brand"),
    price := priceField product.price,
    image_url := imageUrlOf product.thumbnail,
    reason :=
      if (userBrands links).length > 0 then
        "Based on your interest in " ++ String.intercalate ", " (userBrands links)
      else "Based on your saved collection" }

/-- part_000 lines 138-165: slice to 8, map each product, keep only
records with truthy url and title. -/
def normalize (links : List LinkItem) (results : List Product) : List NormRec :=
  ((results.take 8).map (mapProduct links)).filter fun rec =>
    (rec.url != "") && (rec.title != "")

/-! ## The similarity-path response and persisted rows (server.js 188-235) -/

/-- One element of the `recommendations` array of the JSON response.
`similarity_score` is present on the similarity path and absent from the
generative fallback; `url` is nullable on the similarity path because the
url of the corpus row passes through unchecked. -/
structure RecView where
  url : Option String
  title : Option String
  brand : Option String
  price : Option String
  image_url : Option String
  reason : String
  similarity_score : Option Rat
deriving DecidableEq

/-- A row of the `recommendations` table as built for insertion. -/
structure RecRow where
  user_id : String
  url : String
  title : String
  brand : String
  price : String
  image_url : Option String
  reason : String
  feedback : Option String
  is_saved : Bool
deriving DecidableEq

/-- The `reason` string of the similarity path:
`Math.round(item.similarity * 100) + "% style match"` (JavaScript
`Math.round` is floor of x + 1/2, matching Mathlib `round`). -/
def styleMatchReason (similarity : Rat) : String :=
  toString (round (similarity * 100)) ++ "% style match"

/-- server.js lines 188-195: attach a similarity score to every corpus row,
with the similarity function passed in (it is `cosineSimilarity` over the
external embedding space). -/
def itemsWithSimilarity (sim : List Rat → List Rat → Rat)
    (userEmbedding : List Rat) (allLinks : List CorpusLink) : List ScoredItem :=
  allLinks.map fun item =>
    { id := item.id, url := item.url, title := item.title, brand := item.brand,
      price := item.price, thumbnail := item.thumbnail,
      similarity := sim userEmbedding item.embedding }

/-- server.js lines 203-213: the response views of the similarity path
(the thumbnail passes through to `image_url` unvalidated). -/
def similarityViews (top : List ScoredItem) : List RecView :=
  top.map fun item =>
    { url := item.url, title := item.title, brand := item.brand,
      price := item.price, image_url := item.thumbnail,
      reason := styleMatchReason item.similarity,
      similarity_score := some item.similarity }

/-- The whole similarity path from corpus rows to response views. -/
def similarityRecommendations (sim : List Rat → List Rat → Rat)
    (userEmbedding : List Rat) (allLinks : List CorpusLink) : List RecView :=
  similarityViews (topRecommendations (itemsWithSimilarity sim userEmbedding allLinks))

/-- server.js lines 216-226: the rows inserted by the similarity path. -/
def recsToInsert (userId : String) (recs : List RecView) : List RecRow :=
  recs.map fun rec =>
    { user_id := userId, url := jsOr rec.url "", title := jsOr rec.title "Unknown",
      brand := jsOr rec.brand "Unknown", price := jsOr rec.price "0",
      image_url := rec.image_url, reason := rec.reason,
      feedback := none, is_saved := false }

/-! ## The generative fallback (server.js 266-326 and part_001 lines 196-257) -/

/-- One entry of the `recommendations` array of the model output (every field may be
absent from the generated JSON). -/
structure GenRec where
  title : Option String
  brand : Option String
  price : Option String
  reason : Option String
deriving DecidableEq

/-- The parsed model output: the `recommendations` field may be missing. -/
structure GenResponse where
  recommendations : Option (List GenRec)
deriving DecidableEq

/-- The Google search URL built by the fallback, with the external
`encodeURIComponent` passed in as `enc`. -/
def googleSearchUrl (enc : String → String) (query : String) : String :=
  "https://www.google.com/search?q=" ++ enc query

/-- The per-entry mapping of server.js lines 299-306. -/
def fallbackView (enc : String → String) (rec : GenRec) : RecView :=
  { url := some (googleSearchUrl enc (tmpl rec.brand ++ " " ++ tmpl rec.title ++ " buy")),
    title := jsOr rec.title "Unknown Product",
    brand := jsOr rec.brand "Unknown Brand",
    price := jsOr rec.price "0",
    image_url := none,
    reason := jsOr rec.reason "Matches your style",
    similarity_score := none }

/-- server.js lines 298-307:
`(aiRecommendations.recommendations || []).slice(0, 8).map(...)`. -/
def fallbackViews (enc : String → String) (ai : GenResponse) : List RecView :=
  ((ai.recommendations.getD []).take 8).map (fallbackView enc)

/-- server.js lines 310-320: the fallback rows copy the view fields
verbatim (the view always carries a url, so `getD` is inert). -/
def fallbackRows (userId : String) (recs : List RecView) : List RecRow :=
  recs.map fun rec =>
    { user_id := userId, url := rec.url.getD "", title := jsOr rec.title "",
      brand := jsOr rec.brand "", price := jsOr rec.price "",
      image_url := rec.image_url, reason := rec.reason,
      feedback := none, is_saved := false }

/-! ## The generative-only variant (part_001 lines 337-461)

This variant maps the model output with no `slice(0, 8)` bound. -/

/-- One entry of the model output of that variant. -/
structure GenRecB where
  title : Option String
  brand : Option String
  price : Option String
  category : Option String
  reason : Option String
  search_query : Option String
deriving DecidableEq

/-- One element of the response array of that variant. -/
structure RecViewB where
  url : String
  title : Option String
  brand : Option String
  price : Option String
  image_url : Option String
  reason : Option String
  search_query : String
deriving DecidableEq

/-- part_001 lines 415-425: `(aiRecommendations.recommendations || []).map(...)`
with NO slice. -/
def recommendationsGenOnly (ai : Option (List GenRecB)) : List RecViewB :=
  (ai.getD []).map fun rec =>
    { url := "", title := rec.title, brand := rec.brand, price := rec.price,
      image_url := none, reason := rec.reason,
      search_query := jsOr rec.search_query (tmpl rec.brand ++ " " ++ tmpl rec.title) }

/-! ## The plain fallback variant (part_001 lines 676-687)

No title/brand defaults and no " buy" suffix in the search query. -/

/-- One element of the response array of the plain fallback. -/
structure RecViewPlain where
  url : String
  title : Option String
  brand : Option String
  price : Option String
  image_url : Option String
  reason : Option String
deriving DecidableEq

/-- part_001 lines 677-684. -/
def fallbackViewPlain (enc : String → String) (rec : GenRec) : RecViewPlain :=
  { url := googleSearchUrl enc (tmpl rec.brand ++ " " ++ tmpl rec.title),
    title := rec.title, brand := rec.brand, price := rec.price,
    image_url := none, reason := rec.reason }

/-- part_001 lines 676-687 over the whole model output. -/
def fallbackViewsPlain (enc : String → String) (ai : GenResponse) : List RecViewPlain :=
  ((ai.recommendations.getD []).take 8).map (fallbackViewPlain enc)

/-! ## The POST /api/recommendations orchestrator of server.js (138-255)

All external outcomes are fields of an environment record.  A thrown
JavaScript error is modelled by `Except.error` carrying the one property
the catch handler inspects: whether `error.message` contains "embedding". -/

/-- The one observable property of a thrown error. -/
structure JsErr where
  mentionsEmbedding : Bool
deriving DecidableEq

/-- The outcomes of all external calls one request can make. -/
structure RecEnv where
  /-- `req.body.userId`. -/
  userId : Option String
  /-- the select on `links` for the requesting user. -/
  linksResult : Except JsErr (List LinkItem)
  /-- the `generateEmbedding` call (the OpenAI embed API may throw). -/
  embedResult : Except JsErr (List Rat)
  /-- the corpus select (its error field is ignored by the code; a null
  or failed result behaves as the empty list). -/
  allLinks : List CorpusLink
  /-- the chat completion plus `JSON.parse` of its content; a syntactically
  invalid content makes `JSON.parse` throw a SyntaxError, whose message
  does not contain "embedding". -/
  genResult : Except JsErr GenResponse
  /-- whether the insert into `recommendations` reports an error. -/
  insertErr : Bool
  /-- the chat completion outcome if the fallback runs again from the
  catch handler. -/
  genResultCatch : Except JsErr GenResponse
  /-- the insert outcome on that second fallback run. -/
  insertErrCatch : Bool

/-- The observable HTTP outcome of one request. -/
inductive RecResponse where
  /-- `200 { recommendations }`. -/
  | ok (recs : List RecView)
  /-- `400, User ID is required`. -/
  | badRequest
  /-- `500, Failed to fetch links`. -/
  | fetchFailed
  /-- `500, Failed to generate recommendations`. -/
  | serverError
  /-- the async handler rejected inside the catch handler: no response
  is ever sent. -/
  | noResponse
deriving DecidableEq

/-- `generateOpenAIRecommendations` (server.js 266-326): parse the model
output (propagating a thrown parse error), shape the views, best-effort
insert, respond.  Returns the response together with the rows actually
persisted. -/
def runFallback (enc : String → String) (userId : String)
    (genResult : Except JsErr GenResponse) (insertErr : Bool) :
    Except JsErr (RecResponse × List RecRow) :=
  match genResult with
  | .error e => .error e
  | .ok ai =>
    let recs := fallbackViews enc ai
    let rows := if recs.length > 0 then fallbackRows userId recs else []
    .ok (.ok recs, if insertErr then [] else rows)

/-- The body of the try block of POST /api/recommendations
(server.js 139-236). -/
def tryRecommendations (sim : List Rat → List Rat → Rat) (enc : String → String)
    (env : RecEnv) : Except JsErr (RecResponse × List RecRow) :=
  if !(jsTruthy env.userId) then .ok (.badRequest, []) else
  match env.linksResult with
  | .error _ => .ok (.fetchFailed, [])
  | .ok userLinks =>
    if userLinks.isEmpty then .ok (.ok [], []) else
    match env.embedResult with
    | .error e => .error e
    | .ok userEmbedding =>
      if env.allLinks.isEmpty then
        runFallback enc (env.userId.getD "") env.genResult env.insertErr
      else
        let recs := similarityRecommendations sim userEmbedding env.allLinks
        let rows := if recs.length > 0 then recsToInsert (env.userId.getD "") recs else []
        .ok (.ok recs, if env.insertErr then [] else rows)

/-- The whole handler including the catch (server.js 237-254): an error
whose message contains "embedding" re-runs the generative fallback; any
other error yields the 500 response; an error thrown inside the catch
handler leaves the request unanswered. -/
def handleRecommendations (sim : List Rat → List Rat → Rat) (enc : String → String)
    (env : RecEnv) : RecResponse × List RecRow :=
  match tryRecommendations sim enc env with
  | .ok r => r
  | .error e =>
    if e.mentionsEmbedding then
      match runFallback enc (env.userId.getD "") env.genResultCatch env.insertErrCatch with
      | .ok r => r
      | .error _ => (.noResponse, [])
    else (.serverError, [])

/-! ## Helper lemmas -/

theorem simLE_trans (a b c : ScoredItem) (hab : simLE a b) (hbc : simLE b c) :
    simLE a c := by
  simp only [simLE, decide_eq_true_eq] at hab hbc ⊢
  exact le_trans hbc hab

theorem simLE_total (a b : ScoredItem) : simLE a b || simLE b a := by
  simp only [simLE, Bool.or_eq_true, decide_eq_true_eq]
  exact le_total b.similarity a.similarity

theorem foldl_sq_zero (v : List Rat) (h : ∀ x ∈ v, x = 0) :
    ∀ init : Rat, v.foldl (fun sum a => sum + a * a) init = init := by
  induction v with
  | nil => intro init; rfl
  | cons a v ih =>
    intro init
    have ha : a = 0 := h a (by simp)
    have := ih (fun x hx => h x (by simp [hx])) init
    simp [List.foldl, ha, this]

theorem foldl_mul_zero (l : List (Rat × Rat)) (h : ∀ p ∈ l, p.1 = 0 ∨ p.2 = 0) :
    ∀ init : Rat, l.foldl (fun sum p => sum + p.1 * p.2) init = init := by
  induction l with
  | nil => intro init; rfl
  | cons p l ih =>
    intro init
    have hp : p.1 = 0 ∨ p.2 = 0 := h p (by simp)
    have := ih (fun q hq => h q (by simp [hq])) init
    rcases hp with hp | hp <;> simp [List.foldl, hp, this]

theorem sumSquares_of_zero (v : List Rat) (h : ∀ x ∈ v, x = 0) :
    sumSquares v = 0 :=
  foldl_sq_zero v h 0

theorem dotProduct_of_zero (vecA vecB : List Rat)
    (h : (∀ x ∈ vecA, x = 0) ∨ (∀ x ∈ vecB, x = 0)) :
    dotProduct vecA vecB = 0 := by
  apply foldl_mul_zero
  intro p hp
  have := List.of_mem_zip hp
  rcases h with h | h
  · exact Or.inl (h p.1 this.1)
  · exact Or.inr (h p.2 this.2)

/-! ## The claims -/

/-- C1: the similarity ranking output (sort by descending similarity, take
the first 8) is sorted non-increasing by similarity score, candidates with
equal scores keep their original relative order from the corpus, and the
output is the 8-element prefix of that stable descending order. -/
theorem topRecommendations_sorted_and_stable (items : List ScoredItem) :
    List.Pairwise (fun a b => b.similarity ≤ a.similarity) (topRecommendations items) ∧
    (∀ a b : ScoredItem, a.similarity = b.similarity → List.Sublist [a, b] items →
      List.Sublist [a, b] (items.mergeSort simLE)) ∧
    topRecommendations items = (items.mergeSort simLE).take 8 := by
  refine ⟨?_, ?_, rfl⟩
  · have h := @List.sorted_mergeSort _ simLE simLE_trans simLE_total items
    have h2 := h.sublist (List.take_sublist 8 (items.mergeSort simLE))
    exact h2.imp (fun hab => by simpa [simLE] using hab)
  · intro a b heq hsub
    apply List.pair_sublist_mergeSort simLE_trans simLE_total ?_ hsub
    simp [simLE, heq]

def itemHigh : ScoredItem :=
  { id := 0, url := none, title := none, brand := none, price := none,
    thumbnail := none, similarity := 2 }

def itemLow : ScoredItem :=
  { id := 1, url := none, title := none, brand := none, price := none,
    thumbnail := none, similarity := 1 }

def itemLow2 : ScoredItem :=
  { id := 2, url := none, title := none, brand := none, price := none,
    thumbnail := none, similarity := 1 }

/-- Witness for C1: two equal-scored items keep their relative order in the
sorted corpus. -/
theorem topRecommendations_sorted_and_stable_witness :
    List.Sublist [itemLow, itemLow2] (List.mergeSort [itemHigh, itemLow, itemLow2] simLE) :=
  (topRecommendations_sorted_and_stable [itemHigh, itemLow, itemLow2]).2.1 itemLow itemLow2
    rfl (List.Sublist.cons itemHigh (List.Sublist.refl _))

def genRecSample : GenRecB :=
  { title := some "T", brand := some "B", price := some "1", category := none,
    reason := some "fits", search_query := some "q" }

/-- C4 counterexample: the generative-only variant (part_001 lines 415-425)
applies no slice, so a model output with 9 entries yields 9 returned
recommendations, refuting the at-most-8 bound for every request. -/
theorem recommendationsGenOnly_unbounded :
    ¬((recommendationsGenOnly (some (List.replicate 9 genRecSample))).length ≤ 8) := by
  simp [recommendationsGenOnly]

/-- C4 amended: the discovery normalizer, the similarity ranking and both
sliced generative fallbacks return at most 8 entries; the generative-only
variant returns one entry per model recommendation, unbounded. -/
theorem output_length_le_eight (links : List LinkItem) (results : List Product)
    (items : List ScoredItem) (enc : String → String) (ai : GenResponse) :
    (normalize links results).length ≤ 8 ∧
    (topRecommendations items).length ≤ 8 ∧
    (fallbackViews enc ai).length ≤ 8 ∧
    (fallbackViewsPlain enc ai).length ≤ 8 := by
  refine ⟨?_, ?_, ?_, ?_⟩
  · refine le_trans (List.length_filter_le _ _) ?_
    simp
  · simp [topRecommendations]
  · simp [fallbackViews]
  · simp [fallbackViewsPlain]

/-- C5: price sanitization is idempotent, every sanitized price contains
only digits and the dot, and an absent price defaults to "0". -/
theorem sanitizePrice_spec :
    (∀ x : String, sanitizePrice (sanitizePrice x) = sanitizePrice x) ∧
    (∀ x : String, ∀ c ∈ (sanitizePrice x).data, c.isDigit = true ∨ c = '.') ∧
    priceField none = "0" := by
  refine ⟨fun x => ?_, fun x c hc => ?_, rfl⟩
  · show String.mk ((x.data.filter _).filter _) = String.mk (x.data.filter _)
    rw [List.filter_filter]
    simp
  · have h := List.of_mem_filter hc
    simpa [Bool.or_eq_true, beq_iff_eq] using h

/-- Witness for C5 at a concrete price string. -/
theorem sanitizePrice_spec_witness :
    sanitizePrice (sanitizePrice "$1,234.56 USD") = sanitizePrice "$1,234.56 USD" ∧
    ('.'.isDigit = true ∨ '.' = '.') ∧ priceField none = "0" :=
  ⟨sanitizePrice_spec.1 "$1,234.56 USD",
   sanitizePrice_spec.2.1 "$1,234.56 USD" '.' (by decide),
   sanitizePrice_spec.2.2⟩

/-- C7: for equal-length vectors, if either vector has zero magnitude (all
entries zero), `cosineSimilarity` returns NaN - the division by the product
of the magnitudes is unguarded - rather than throwing or returning a
defined similarity value.  `sqrt` is any model of `Math.sqrt`
(so `sqrt 0 = 0`). -/
theorem cosineSimilarity_zero_magnitude (sqrt : Rat → Rat) (hsqrt : sqrt 0 = 0)
    (vecA vecB : List Rat) (_hlen : vecA.length = vecB.length)
    (h : (∀ x ∈ vecA, x = 0) ∨ (∀ x ∈ vecB, x = 0)) :
    cosineSimilarity sqrt vecA vecB = JSNum.nan := by
  have hdot : dotProduct vecA vecB = 0 := dotProduct_of_zero vecA vecB h
  unfold cosineSimilarity jsDiv
  rcases h with h | h
  · rw [sumSquares_of_zero vecA h, hsqrt]
    simp [hdot]
  · rw [sumSquares_of_zero vecB h, hsqrt]
    simp [hdot]

/-- Witness for C7: a zero query vector against a nonzero corpus vector. -/
theorem cosineSimilarity_zero_magnitude_witness :
    cosineSimilarity id [0, 0] [1, 2] = JSNum.nan :=
  cosineSimilarity_zero_magnitude id rfl [0, 0] [1, 2] rfl (Or.inl (by decide))

theorem take_eight_singleton {α : Type} (a : α) : List.take 8 [a] = [a] := rfl

theorem googleSearchUrl_ne_empty (enc : String → String) (q : String) :
    googleSearchUrl enc q ≠ "" := by
  intro h
  have h1 := congrArg String.length h
  simp [googleSearchUrl, String.length_append] at h1
  exact absurd h1.1 (by decide)

def emptyProduct : Product :=
  { link := none, product_link := none, title := none, source := none,
    brand := none, price := none, thumbnail := none }

def corpusNoUrl : CorpusLink :=
  { id := 2, url := none, title := some "T", brand := none, price := none,
    thumbnail := none, embedding := [1] }

/-- C3 counterexample: the similarity path of server.js enforces no
url/title invariant - a corpus row with a null url yields a returned view
with null url and a persisted row with empty url, not a dropped record. -/
theorem similarityPath_empty_url_persisted :
    ((recsToInsert "u1" (similarityRecommendations (fun _ _ => 1) [1] [corpusNoUrl])).map
        RecRow.url = [""]) ∧
    ((similarityRecommendations (fun _ _ => 1) [1] [corpusNoUrl]).map RecView.url = [none]) := by
  constructor <;>
    simp [recsToInsert, similarityRecommendations, similarityViews, topRecommendations,
      itemsWithSimilarity, corpusNoUrl, jsOr, take_eight_singleton]

/-- C3 amended: the discovery normalizer guarantees non-empty url and title
on every record it returns or persists, and a candidate with neither url
nor title is dropped silently - normalize of the all-absent candidate is
the empty list; the similarity path of server.js does not enforce the
invariant. -/
theorem normalize_nonempty_url_title (links : List LinkItem) (results : List Product)
    (rec : NormRec) :
    (rec ∈ normalize links results → rec.url ≠ "" ∧ rec.title ≠ "") ∧
    normalize links [emptyProduct] = [] := by
  constructor
  · intro h
    have h2 := List.of_mem_filter h
    constructor
    · intro hu; rw [hu] at h2; simp at h2
    · intro ht; rw [ht] at h2; simp at h2
  · simp [normalize, take_eight_singleton, mapProduct, emptyProduct, jsOr]

def productFull : Product :=
  { link := some "http://a", product_link := none, title := some "T", source := none,
    brand := none, price := none, thumbnail := none }

def productFullRec : NormRec :=
  { url := "http://a", title := "T", brand := "Unknown Brand", price := "0",
    image_url := none, reason := "Based on your saved collection" }

/-- Witness for the amended C3 at a concrete kept candidate. -/
theorem normalize_nonempty_url_title_witness :
    productFullRec.url ≠ "" ∧ productFullRec.title ≠ "" :=
  (normalize_nonempty_url_title [] [productFull] productFullRec).1 (by decide)

def corpusPlaceholderThumb : CorpusLink :=
  { id := 3, url := some "http://shop/x", title := some "X", brand := none, price := none,
    thumbnail := some "http://example.com/x.jpg", embedding := [1] }

/-- C6 counterexample: the similarity path of server.js passes the
thumbnail through to image_url unvalidated, so the placeholder thumbnail
"http://example.com/x.jpg" is NOT nulled there. -/
theorem similarityPath_thumbnail_passthrough :
    ((similarityRecommendations (fun _ _ => 1) [1] [corpusPlaceholderThumb]).map
        RecView.image_url = [some "http://example.com/x.jpg"]) ∧
    ((similarityRecommendations (fun _ _ => 1) [1] [corpusPlaceholderThumb]).map
        RecView.image_url ≠ [none]) := by
  have h : (similarityRecommendations (fun _ _ => 1) [1] [corpusPlaceholderThumb]).map
      RecView.image_url = [some "http://example.com/x.jpg"] := by
    simp [similarityRecommendations, similarityViews, topRecommendations,
      itemsWithSimilarity, corpusPlaceholderThumb, take_eight_singleton]
  exact ⟨h, by rw [h]; simp⟩

/-- C6 amended: the discovery normalizer nulls a thumbnail that is empty or
contains one of the placeholder substrings "example.com" or "1234567"; the
similarity path of server.js passes thumbnails through unvalidated. -/
theorem imageUrl_validation (links : List LinkItem) (p : Product)
    (h : p.thumbnail = none ∨ p.thumbnail = some "" ∨
      (∃ t, p.thumbnail = some t ∧
        (containsSub t "example.com" = true ∨ containsSub t "1234567" = true))) :
    (mapProduct links p).image_url = none := by
  rcases h with h | h | ⟨t, ht, hc⟩
  · simp [mapProduct, imageUrlOf, h]
  · simp [mapProduct, imageUrlOf, h]
  · rcases hc with hc | hc <;> simp [mapProduct, imageUrlOf, ht, hc]

def placeholderProduct : Product :=
  { link := some "http://a", product_link := none, title := some "T", source := none,
    brand := none, price := none, thumbnail := some "http://example.com/x.jpg" }

/-- Witness for the amended C6: the end-to-end scenario thumbnail. -/
theorem imageUrl_validation_witness :
    (mapProduct [] placeholderProduct).image_url = none :=
  imageUrl_validation [] placeholderProduct
    (Or.inr (Or.inr ⟨"http://example.com/x.jpg", rfl, Or.inl (by decide)⟩))

def corpusNoTitle : CorpusLink :=
  { id := 4, url := some "http://a", title := none, brand := none, price := none,
    thumbnail := none, embedding := [1] }

def genRecEmpty : GenRec :=
  { title := none, brand := none, price := none, reason := none }

/-- C9 counterexample: for a candidate with absent title and brand, the
similarity path of server.js persists "Unknown"/"Unknown" - not
"Unknown Product"/"Unknown Brand" - and the plain fallback variant applies
no default at all. -/
theorem similarityPath_unknown_defaults :
    ((recsToInsert "u1" (similarityRecommendations (fun _ _ => 1) [1] [corpusNoTitle])).map
        RecRow.title = ["Unknown"]) ∧
    ((recsToInsert "u1" (similarityRecommendations (fun _ _ => 1) [1] [corpusNoTitle])).map
        RecRow.brand = ["Unknown"]) ∧
    (("Unknown" : String) ≠ "Unknown Product") ∧
    (fallbackViewPlain id genRecEmpty).title = none := by
  refine ⟨?_, ?_, by decide, rfl⟩ <;>
    simp [recsToInsert, similarityRecommendations, similarityViews, topRecommendations,
      itemsWithSimilarity, corpusNoTitle, jsOr, take_eight_singleton]

/-- C9 amended: the defaults "Unknown Product" and "Unknown Brand" hold in
the discovery normalizer and in the main generative fallback; the
similarity path instead persists "Unknown"/"Unknown" (and returns the
absent field as null), and the plain fallback variant applies no defaults. -/
theorem title_brand_defaults (links : List LinkItem) (p : Product)
    (enc : String → String) (r : GenRec) :
    (p.title = none → (mapProduct links p).title = "Unknown Product") ∧
    (p.source = none → p.brand = none → (mapProduct links p).brand = "Unknown Brand") ∧
    (r.title = none → (fallbackView enc r).title = "Unknown Product") ∧
    (r.brand = none → (fallbackView enc r).brand = "Unknown Brand") := by
  refine ⟨fun h => ?_, fun h1 h2 => ?_, fun h => ?_, fun h => ?_⟩
  · simp [mapProduct, jsOr, h]
  · simp [mapProduct, jsOr, h1, h2]
  · simp [fallbackView, jsOr, h]
  · simp [fallbackView, jsOr, h]

/-- Witness for the amended C9 at concrete absent-field candidates. -/
theorem title_brand_defaults_witness :
    (mapProduct [] emptyProduct).title = "Unknown Product" ∧
    (mapProduct [] emptyProduct).brand = "Unknown Brand" ∧
    (fallbackView id genRecEmpty).title = "Unknown Product" ∧
    (fallbackView id genRecEmpty).brand = "Unknown Brand" :=
  ⟨(title_brand_defaults [] emptyProduct id genRecEmpty).1 rfl,
   (title_brand_defaults [] emptyProduct id genRecEmpty).2.1 rfl rfl,
   (title_brand_defaults [] emptyProduct id genRecEmpty).2.2.1 rfl,
   (title_brand_defaults [] emptyProduct id genRecEmpty).2.2.2 rfl⟩

def linkBasic : LinkItem :=
  { id := 10, url := some "http://saved/1", title := some "Shirt", description := none,
    brand := some "BrandA", price := some "10", thumbnail := none }

def envInvalidGen : RecEnv :=
  { userId := some "u1",
    linksResult := .ok [linkBasic],
    embedResult := .ok [1, 0],
    allLinks := [],
    genResult := .error { mentionsEmbedding := false },
    insertErr := false,
    genResultCatch := .ok { recommendations := some [] },
    insertErrCatch := false }

/-- C2 counterexample: with saved links, an empty corpus and a generative
output whose JSON parsing throws, the endpoint answers with the 500 error
response, not 200 with an empty recommendations list. -/
theorem invalidGenJson_counterexample :
    (handleRecommendations (fun _ _ => 1) id envInvalidGen).1 = RecResponse.serverError ∧
    (handleRecommendations (fun _ _ => 1) id envInvalidGen).1 ≠ RecResponse.ok [] :=
  ⟨rfl, by decide⟩

/-- C2 amended: when the corpus similarity source yields zero eligible
candidates and the generative output is syntactically invalid JSON (the
thrown SyntaxError message does not mention "embedding"), the endpoint
responds 500 Failed-to-generate-recommendations, persisting nothing -
not 200 with an empty list. -/
theorem invalidGenJson_serverError (sim : List Rat → List Rat → Rat)
    (enc : String → String) (env : RecEnv) (ls : List LinkItem) (v : List Rat) (e : JsErr)
    (huser : jsTruthy env.userId = true)
    (hlinks : env.linksResult = .ok ls) (hne : ls ≠ [])
    (hembed : env.embedResult = .ok v)
    (hcorpus : env.allLinks = [])
    (hgen : env.genResult = .error e) (hmsg : e.mentionsEmbedding = false) :
    handleRecommendations sim enc env = (RecResponse.serverError, []) := by
  have hlsne : ls.isEmpty = false := by
    cases ls with
    | nil => exact absurd rfl hne
    | cons a l => rfl
  simp [handleRecommendations, tryRecommendations, runFallback, huser, hlinks, hembed,
    hcorpus, hgen, hmsg, hlsne]

/-- Witness for the amended C2 at the concrete environment. -/
theorem invalidGenJson_serverError_witness :
    handleRecommendations (fun _ _ => 1) id envInvalidGen = (RecResponse.serverError, []) :=
  invalidGenJson_serverError (fun _ _ => 1) id envInvalidGen [linkBasic] [1, 0]
    { mentionsEmbedding := false } rfl rfl (List.cons_ne_nil _ _) rfl rfl rfl rfl

/-- C8: once the similarity path has computed its (non-empty) recommendation
list, the response does not depend on whether the persistence insert fails:
the caller receives 200 with exactly the generated recommendations either
way (the failure is only logged). -/
theorem insertFailure_response_unchanged (sim : List Rat → List Rat → Rat)
    (enc : String → String) (env : RecEnv) (ls : List LinkItem) (v : List Rat)
    (huser : jsTruthy env.userId = true)
    (hlinks : env.linksResult = .ok ls) (hne : ls ≠ [])
    (hembed : env.embedResult = .ok v)
    (hcorpus : env.allLinks ≠ []) :
    ∀ b : Bool,
      (handleRecommendations sim enc { env with insertErr := b }).1 =
        RecResponse.ok (similarityRecommendations sim v env.allLinks) := by
  intro b
  have hlsne : ls.isEmpty = false := by
    cases ls with
    | nil => exact absurd rfl hne
    | cons a l => rfl
  have hcne : env.allLinks.isEmpty = false := by
    cases h : env.allLinks with
    | nil => exact absurd h hcorpus
    | cons a l => rfl
  simp [handleRecommendations, tryRecommendations, huser, hlinks, hembed, hlsne, hcne]

def corpusBasic : CorpusLink :=
  { id := 5, url := some "http://b", title := some "Y", brand := none, price := none,
    thumbnail := none, embedding := [1] }

def envSimilarity : RecEnv :=
  { userId := some "u1",
    linksResult := .ok [linkBasic],
    embedResult := .ok [1],
    allLinks := [corpusBasic],
    genResult := .ok { recommendations := some [] },
    insertErr := false,
    genResultCatch := .ok { recommendations := some [] },
    insertErrCatch := false }

/-- Witness for C8 at a concrete environment with a failing insert. -/
theorem insertFailure_response_unchanged_witness :
    (handleRecommendations (fun _ _ => 1) id { envSimilarity with insertErr := true }).1 =
      RecResponse.ok (similarityRecommendations (fun _ _ => 1) [1] envSimilarity.allLinks) :=
  insertFailure_response_unchanged (fun _ _ => 1) id envSimilarity [linkBasic] [1]
    rfl rfl (List.cons_ne_nil _ _) rfl (List.cons_ne_nil _ _) true

/-- C10: every recommendation produced by the generative fallback has null
image_url and a non-empty url, namely the fixed Google search prefix
followed by the URL-encoded brand-and-title query (with the " buy" suffix
in the main variant, and plain brand-and-title in the plain variant). -/
theorem fallback_url_shape (enc : String → String) (g : GenResponse) (v : RecView)
    (hv : v ∈ fallbackViews enc g) :
    v.image_url = none ∧
    (∃ r ∈ (g.recommendations.getD []).take 8,
      v.url = some (googleSearchUrl enc (tmpl r.brand ++ " " ++ tmpl r.title ++ " buy"))) ∧
    v.url ≠ none ∧ v.url ≠ some "" ∧
    (∀ r : GenRec, (fallbackViewPlain enc r).image_url = none ∧
      (fallbackViewPlain enc r).url = googleSearchUrl enc (tmpl r.brand ++ " " ++ tmpl r.title) ∧
      (fallbackViewPlain enc r).url ≠ "") := by
  obtain ⟨r, hr, rfl⟩ := List.mem_map.mp hv
  refine ⟨rfl, ⟨r, hr, rfl⟩, by simp [fallbackView], ?_, ?_⟩
  · simp only [fallbackView, ne_eq, Option.some.injEq]
    exact googleSearchUrl_ne_empty enc _
  · intro r
    exact ⟨rfl, rfl, googleSearchUrl_ne_empty enc _⟩

def genRecFull : GenRec :=
  { title := some "Polo", brand := some "Lacoste", price := some "99",
    reason := some "fits" }

/-- Witness for C10 at a concrete model recommendation. -/
theorem fallback_url_shape_witness :
    (fallbackView id genRecFull).image_url = none :=
  (fallback_url_shape id { recommendations := some [genRecFull] }
    (fallbackView id genRecFull) (by decide)).1

end Peruze
